import Mathlib

/-!
Shallow embedding of the entity/request lifecycle of the food-delivery
backend: the `UsersService` (users.service.ts) and the `RestaurantService`
(restaurant.service.ts), over an explicit relational store `Db`.

External collaborators (bcrypt hashing, UUID generation, object storage,
geocoding) are passed in as explicit function parameters, mirroring the
dependency-injected services of the source. Fallible collaborator calls
return `Except`. JavaScript string truthiness (`if (s)`) is modelled by
`truthy`; `parseFloat` of a coordinate string is abstracted to an opaque
token (`Coord`), since no verified property depends on the numeric value
of a coordinate, only on its presence (`none` versus `some`).
-/

/-- Coordinate values: opaque tokens, numeric parsing abstracted. -/
abbrev Coord := String

/-- JS `parseFloat` abstracted: the numeric value is never inspected. -/
def parseFloat (s : String) : Coord := s

/-- JS truthiness of a string: the empty string is falsy. -/
def truthy (s : String) : Bool := !s.isEmpty

/-- JS truthiness of an optional string field (`undefined` is falsy). -/
def truthyOpt (o : Option String) : Bool :=
  match o with
  | none => false
  | some s => truthy s

/-- Source `RestaurantStatus` enum of restaurant.entity.ts. -/
inductive RestaurantStatus where
  | PENDING
  | APPROVED
  | REJECTED
deriving DecidableEq, Repr, BEq

/-- Source `Role` entity: id and name (permissions are not touched here). -/
structure Role where
  id : String
  name : String
deriving DecidableEq, Repr, BEq

/-- Source `User` entity, restricted to the fields the verified operations read
or write. The `role` relation is stored inline. -/
structure User where
  id : String
  username : String
  name : String
  email : String
  password : String
  role : Option Role
deriving DecidableEq, Repr, BEq

/-- Source `Address` entity: generated primary key, the four address components,
and nullable coordinates. -/
structure Address where
  id : Nat
  street : String
  ward : String
  district : String
  city : String
  latitude : Option Coord
  longitude : Option Coord
deriving DecidableEq, Repr, BEq

/-- The `addressData` argument shape of `requestRestaurantWithFiles` and
`updateWithAddressAndFiles`. -/
structure AddressData where
  street : String
  ward : String
  district : String
  city : String
deriving DecidableEq, Repr, BEq

/-- Source `Restaurant` entity, restricted to the fields the verified operations
read or write. The `owner` relation is stored by user id, the `address`
relation inline. -/
structure Restaurant where
  id : Nat
  name : String
  description : String
  openTime : String
  closeTime : String
  avatar : String
  backgroundImage : String
  certificateImage : String
  latitude : Option Coord
  longitude : Option Coord
  ownerId : String
  address : Option Address
  status : RestaurantStatus
deriving DecidableEq, Repr, BEq

/-- Source `CreateRestaurantDto`: raw string coordinates, optional owner id and
optional address string, plus the scalar fields spread into the entity. -/
structure CreateRestaurantDto where
  name : String
  description : String
  openTime : String
  closeTime : String
  latitude : Option String
  longitude : Option String
  address : Option String
  ownerId : Option String
deriving DecidableEq, Repr, BEq

/-- Source `UpdateRestaurantDto`: every field optional; present fields are merged
by `Object.assign`, `ownerId` is handled (and deleted) separately. -/
structure UpdateRestaurantDto where
  name : Option String
  description : Option String
  openTime : Option String
  closeTime : Option String
  ownerId : Option String
deriving DecidableEq, Repr, BEq

/-- Source `CreateUserDto`: `role` carries a role id for the privileged path. -/
structure CreateUserDto where
  username : String
  name : String
  email : String
  password : String
  role : String
deriving DecidableEq, Repr, BEq

/-- Source `UpdateUserDto`: every field optional. -/
structure UpdateUserDto where
  username : Option String
  name : Option String
  email : Option String
  password : Option String
  role : Option String
deriving DecidableEq, Repr, BEq

/-- Raised errors: `BadRequestException`, `NotFoundException`, and plain
`Error`, each carrying its message. -/
inductive Err where
  | badRequest (msg : String)
  | notFound (msg : String)
  | generic (msg : String)
deriving DecidableEq, Repr, BEq

/-- The relational store backing the repositories, plus a counter
modelling generated primary keys (uniqueness of generated keys is a
property of the store, not re-proved here). -/
structure Db where
  restaurants : List Restaurant
  users : List User
  addresses : List Address
  roles : List Role
  nextId : Nat
deriving DecidableEq, Repr, BEq

/-- Outcome of `geocodingService.geocode`: coordinates, a result-less
answer (`null`), or a thrown error. -/
inductive GeoOutcome where
  | found (lat lng : Coord)
  | noResult
  | failure (msg : String)
deriving DecidableEq, Repr, BEq

/-- The object-storage collaborator (`GoogleCloudStorageService`):
`uploadPublicFile file folder` yields a URL or throws; `deleteFile url`
may throw. -/
structure Gcs where
  upload : String → String → Except String String
  delete : String → Except String Unit

/-- TypeORM `repository.save` on a store whose rows are keyed by `k`:
update the row with the entity's key, or insert the entity if no row has
that key (primary keys are unique in the store). -/
def saveRecord [BEq κ] (k : α → κ) (x : α) : List α → List α
  | [] => [x]
  | y :: ys => if k y == k x then x :: ys else y :: saveRecord k x ys

/-- Boolean success test for an `Except` result. -/
def exOk (e : Except Err α) : Bool :=
  match e with
  | .ok _ => true
  | .error _ => false

instance [DecidableEq ε] [DecidableEq α] : DecidableEq (Except ε α) := fun a b =>
  match a, b with
  | .ok x, .ok y =>
    if h : x = y then .isTrue (by rw [h]) else .isFalse (by intro hc; cases hc; exact h rfl)
  | .error x, .error y =>
    if h : x = y then .isTrue (by rw [h]) else .isFalse (by intro hc; cases hc; exact h rfl)
  | .ok _, .error _ => .isFalse (by intro hc; cases hc)
  | .error _, .ok _ => .isFalse (by intro hc; cases hc)

namespace UsersService

/-- Modelled from the spec: the `DefaultRole` enum of role.entity.ts is
not among the provided sources; the spec states the default role "USER"
must exist for self-registration. -/
def defaultUserRoleName : String := "USER"

/-- The user entity built by `usersRepository.create({...dto, id,
password, role})`: the DTO spread with id, hashed password and role
relation overridden. -/
def mkUser (dto : CreateUserDto) (id hashedPassword : String) (role : Role) : User :=
  { id := id
    username := dto.username
    name := dto.name
    email := dto.email
    password := hashedPassword
    role := some role }

/-- Source `UsersService.create`: resolve the role by id, generate a 28-char id,
hash the password, persist. Errors are wrapped as
`Failed to create user: ...`. `hash` is the bcrypt collaborator and
`genId` the freshly generated UUID prefix. -/
def create (hash : String → String) (genId : String)
    (dto : CreateUserDto) (db : Db) : Db × Except Err User :=
  match db.roles.find? (fun rl => rl.id == dto.role) with
  | none => (db, .error (.generic "Failed to create user: Role not found"))
  | some role =>
    let user := mkUser dto genId (hash dto.password) role
    ({ db with users := saveRecord User.id user db.users }, .ok user)

/-- Source `UsersService.register`: resolve the default USER role by name, use
the supplied id unless it is falsy (then generate one), hash the
password, persist. -/
def register (hash : String → String) (genId : String)
    (dto : CreateUserDto) (id : String) (db : Db) : Db × Except Err User :=
  match db.roles.find? (fun rl => rl.name == defaultUserRoleName) with
  | none => (db, .error (.generic "Default User role not found"))
  | some role =>
    let userId := if truthy id then id else genId
    let user := mkUser dto userId (hash dto.password) role
    ({ db with users := saveRecord User.id user db.users }, .ok user)

/-- The rest spread `const { role, ...updateData } = updateUserDto`:
`role` removed, every other field kept. -/
structure UserUpdateData where
  username : Option String
  name : Option String
  email : Option String
  password : Option String
deriving DecidableEq, Repr, BEq

/-- Destructuring `role` out of the update payload (line 48 of
users.service.ts). -/
def stripRole (dto : UpdateUserDto) : UserUpdateData :=
  { username := dto.username
    name := dto.name
    email := dto.email
    password := dto.password }

/-- Source `Object.assign(user, updateData)`: present fields overwrite. -/
def assignUser (u : User) (d : UserUpdateData) : User :=
  { u with
    username := d.username.getD u.username
    name := d.name.getD u.name
    email := d.email.getD u.email
    password := d.password.getD u.password }

/-- Source `UsersService.updateMe`: load the user, strip `role` from the
payload, hash a truthy password, merge, persist. -/
def updateMe (hash : String → String) (db : Db) (id : String)
    (dto : UpdateUserDto) : Db × Except Err User :=
  match db.users.find? (fun u => u.id == id) with
  | none => (db, .error (.generic ("User with id " ++ id ++ " not found")))
  | some user =>
    let updateData := stripRole dto
    let updateData :=
      match updateData.password with
      | some p => if truthy p then { updateData with password := some (hash p) } else updateData
      | none => updateData
    let user' := assignUser user updateData
    ({ db with users := saveRecord User.id user' db.users }, .ok user')

end UsersService

namespace RestaurantService

/-- Source `RestaurantService.findOne`: load by id or throw a plain `Error`. -/
def findOne (db : Db) (id : Nat) : Except Err Restaurant :=
  match db.restaurants.find? (fun r => r.id == id) with
  | some r => .ok r
  | none => .error (.generic ("Restaurant with ID " ++ toString id ++ " not found"))

/-- Source `RestaurantService.approveRestaurant`: only a PENDING restaurant may
be approved; otherwise a `BadRequestException` and no mutation. -/
def approveRestaurant (db : Db) (id : Nat) : Db × Except Err Restaurant :=
  match findOne db id with
  | .error e => (db, .error e)
  | .ok restaurant =>
    if restaurant.status ≠ RestaurantStatus.PENDING then
      (db, .error (.badRequest ("Restaurant with ID " ++ toString id ++ " is not in pending status")))
    else
      let restaurant' := { restaurant with status := RestaurantStatus.APPROVED }
      ({ db with restaurants := saveRecord Restaurant.id restaurant' db.restaurants },
       .ok restaurant')

/-- Source `RestaurantService.rejectRestaurant`: only a PENDING restaurant may
be rejected; otherwise a `BadRequestException` and no mutation. -/
def rejectRestaurant (db : Db) (id : Nat) : Db × Except Err Restaurant :=
  match findOne db id with
  | .error e => (db, .error e)
  | .ok restaurant =>
    if restaurant.status ≠ RestaurantStatus.PENDING then
      (db, .error (.badRequest ("Restaurant with ID " ++ toString id ++ " is not in pending status")))
    else
      let restaurant' := { restaurant with status := RestaurantStatus.REJECTED }
      ({ db with restaurants := saveRecord Restaurant.id restaurant' db.restaurants },
       .ok restaurant')

/-- Source `repository.delete(id)`: remove the row with that primary key and
report the affected-row count. -/
def deleteById (db : Db) (id : Nat) : Db × Nat :=
  ({ db with restaurants := db.restaurants.filter (fun r => !(r.id == id)) },
   db.restaurants.countP (fun r => r.id == id))

/-- Source `RestaurantService.deleteRestaurantRequest`: only a PENDING
restaurant may be deleted as a request; the affected-row count is
re-checked after the delete. -/
def deleteRestaurantRequest (db : Db) (id : Nat) : Db × Except Err Unit :=
  match findOne db id with
  | .error e => (db, .error e)
  | .ok restaurant =>
    if restaurant.status ≠ RestaurantStatus.PENDING then
      (db, .error (.badRequest ("Restaurant with ID " ++ toString id ++ " is not a pending request")))
    else
      let (db', affected) := deleteById db id
      if affected == 0 then
        (db', .error (.notFound ("Restaurant request with ID " ++ toString id ++ " not found")))
      else
        (db', .ok ())

/-- The restaurant entity built by `restaurantRepository.create` from a
creation DTO spread: scalar fields copied, coordinates parsed when
truthy, owner relation and status overridden. Attachment URLs default to
the empty string for the plain creation paths. -/
def mkRestaurant (dto : CreateRestaurantDto) (id : Nat) (owner : User)
    (avatarUrl backgroundUrl certificateUrl : String)
    (address : Option Address) (status : RestaurantStatus) : Restaurant :=
  { id := id
    name := dto.name
    description := dto.description
    openTime := dto.openTime
    closeTime := dto.closeTime
    avatar := avatarUrl
    backgroundImage := backgroundUrl
    certificateImage := certificateUrl
    latitude := if truthyOpt dto.latitude then some (parseFloat (dto.latitude.getD "")) else none
    longitude := if truthyOpt dto.longitude then some (parseFloat (dto.longitude.getD "")) else none
    ownerId := owner.id
    address := address
    status := status }

/-- Source `RestaurantService.create`: the direct/admin creation path. Owner is
required and must exist; an `address` string creates a street-only
Address; the persisted status is APPROVED. All errors are wrapped into
plain `Error`s prefixed `Failed to create restaurant:`. -/
def create (dto : CreateRestaurantDto) (db : Db) : Db × Except Err Restaurant :=
  if truthyOpt dto.ownerId then
    match db.users.find? (fun u => u.id == dto.ownerId.getD "") with
    | none => (db, .error (.generic "Failed to create restaurant: Owner not found"))
    | some owner =>
      if truthyOpt dto.address then
        let address : Address :=
          { id := db.nextId, street := dto.address.getD "", ward := "", district := ""
            city := "", latitude := none, longitude := none }
        let db1 := { db with addresses := db.addresses ++ [address], nextId := db.nextId + 1 }
        let restaurant := mkRestaurant dto db1.nextId owner "" "" "" (some address)
          RestaurantStatus.APPROVED
        ({ db1 with restaurants := db1.restaurants ++ [restaurant], nextId := db1.nextId + 1 },
         .ok restaurant)
      else
        let restaurant := mkRestaurant dto db.nextId owner "" "" "" none
          RestaurantStatus.APPROVED
        ({ db with restaurants := db.restaurants ++ [restaurant], nextId := db.nextId + 1 },
         .ok restaurant)
  else
    (db, .error (.generic "Failed to create restaurant: Owner ID is required"))

/-- Source `RestaurantService.requestRestaurant`: the review path. Same owner
validation (as `BadRequestException`s), the persisted status is
PENDING. -/
def requestRestaurant (dto : CreateRestaurantDto) (db : Db) : Db × Except Err Restaurant :=
  if truthyOpt dto.ownerId then
    match db.users.find? (fun u => u.id == dto.ownerId.getD "") with
    | none => (db, .error (.badRequest "Owner not found"))
    | some owner =>
      if truthyOpt dto.address then
        let address : Address :=
          { id := db.nextId, street := dto.address.getD "", ward := "", district := ""
            city := "", latitude := none, longitude := none }
        let db1 := { db with addresses := db.addresses ++ [address], nextId := db.nextId + 1 }
        let restaurant := mkRestaurant dto db1.nextId owner "" "" "" (some address)
          RestaurantStatus.PENDING
        ({ db1 with restaurants := db1.restaurants ++ [restaurant], nextId := db1.nextId + 1 },
         .ok restaurant)
      else
        let restaurant := mkRestaurant dto db.nextId owner "" "" "" none
          RestaurantStatus.PENDING
        ({ db with restaurants := db.restaurants ++ [restaurant], nextId := db.nextId + 1 },
         .ok restaurant)
  else
    (db, .error (.badRequest "Owner ID is required"))

/-- The uniform pagination envelope returned by every listing
operation. -/
structure Paginated (α : Type) where
  items : List α
  totalItems : Nat
  page : Nat
  pageSize : Nat
  totalPages : Nat
deriving DecidableEq, Repr

/-- Source `Math.ceil(t / p)` on naturals, for `p > 0`. -/
def ceilDivNat (t p : Nat) : Nat := (t + p - 1) / p

/-- Source `findAndCount({skip, take})` over a row list followed by the envelope
construction shared by every listing operation. -/
def paginate (rows : List α) (page pageSize : Nat) : Paginated α :=
  { items := (rows.drop ((page - 1) * pageSize)).take pageSize
    totalItems := rows.length
    page := page
    pageSize := pageSize
    totalPages := ceilDivNat rows.length pageSize }

/-- Source `RestaurantService.findAll`: every restaurant, paginated; `none`
arguments take the TS parameter defaults `page = 1`, `pageSize = 10`. -/
def findAll (db : Db) (page? pageSize? : Option Nat) : Paginated Restaurant :=
  paginate db.restaurants (page?.getD 1) (pageSize?.getD 10)

/-- Source `RestaurantService.findAllApproved`: APPROVED restaurants only. -/
def findAllApproved (db : Db) (page? pageSize? : Option Nat) : Paginated Restaurant :=
  paginate (db.restaurants.filter (fun r => r.status == RestaurantStatus.APPROVED))
    (page?.getD 1) (pageSize?.getD 10)

/-- Source `RestaurantService.getRestaurantRequests`: PENDING restaurants
only. -/
def getRestaurantRequests (db : Db) (page? pageSize? : Option Nat) : Paginated Restaurant :=
  paginate (db.restaurants.filter (fun r => r.status == RestaurantStatus.PENDING))
    (page?.getD 1) (pageSize?.getD 10)

/-- The projected row shape of `getPreview`'s select clause. -/
structure RestaurantPreview where
  id : Nat
  name : String
  address : Option Address
  avatar : String
  description : String
  openTime : String
  closeTime : String
deriving DecidableEq, Repr

/-- The column projection of `getPreview`'s query builder. -/
def toPreview (r : Restaurant) : RestaurantPreview :=
  { id := r.id, name := r.name, address := r.address, avatar := r.avatar
    description := r.description, openTime := r.openTime, closeTime := r.closeTime }

/-- Source `RestaurantService.getPreview`: `getCount` over the projected query,
then `skip`/`take`/`getMany` — the same envelope over projected rows. -/
def getPreview (db : Db) (page? pageSize? : Option Nat) : Paginated RestaurantPreview :=
  paginate (db.restaurants.map toPreview) (page?.getD 1) (pageSize?.getD 10)

/-- The sequential upload block shared by the with-files operations: each
provided file is uploaded in order (avatar, background, certificate) to
its folder; the first thrown upload error aborts the block. An absent
file contributes its fallback URL unchanged. -/
def uploadAll (gcs : Gcs) (avatarFile backgroundFile certificateFile : Option String)
    (avatarUrl0 backgroundUrl0 certificateUrl0 : String) :
    Except String (String × String × String) := do
  let avatarUrl ← match avatarFile with
    | some f => gcs.upload f "restaurant-avatars"
    | none => pure avatarUrl0
  let backgroundUrl ← match backgroundFile with
    | some f => gcs.upload f "restaurant-backgrounds"
    | none => pure backgroundUrl0
  let certificateUrl ← match certificateFile with
    | some f => gcs.upload f "restaurant-certificates"
    | none => pure certificateUrl0
  pure (avatarUrl, backgroundUrl, certificateUrl)

/-- The geocoding try/catch of lines 72–84 and 265–279: coordinates on
success, the address unchanged when geocoding returns no result or
throws (the error is logged and swallowed). -/
def applyGeo (geocode : AddressData → GeoOutcome) (ad : AddressData) (a : Address) : Address :=
  match geocode ad with
  | .found lat lng => { a with latitude := some lat, longitude := some lng }
  | .noResult => a
  | .failure _ => a

/-- The Address built by lines 64–85 of `requestRestaurantWithFiles`:
caller-supplied coordinates are used when both are truthy, otherwise
geocoding is attempted best-effort. `aid` is the generated key. -/
def buildAddress (geocode : AddressData → GeoOutcome) (dto : CreateRestaurantDto)
    (ad : AddressData) (aid : Nat) : Address :=
  let a0 : Address :=
    { id := aid, street := ad.street, ward := ad.ward, district := ad.district
      city := ad.city, latitude := none, longitude := none }
  if truthyOpt dto.latitude && truthyOpt dto.longitude then
    { a0 with latitude := some (parseFloat (dto.latitude.getD ""))
              longitude := some (parseFloat (dto.longitude.getD "")) }
  else
    applyGeo geocode ad a0

/-- Source `RestaurantService.requestRestaurantWithFiles`: validate the owner,
build and persist the Address (before any upload), upload the provided
files (an upload error becomes a `BadRequestException` after the address
is already saved), then persist the Restaurant with status forced to
APPROVED. The final store is returned alongside the outcome. -/
def requestRestaurantWithFiles (gcs : Gcs) (geocode : AddressData → GeoOutcome)
    (dto : CreateRestaurantDto) (ad : AddressData)
    (avatarFile backgroundFile certificateFile : Option String)
    (db : Db) : Db × Except Err Restaurant :=
  if !truthyOpt dto.ownerId then
    (db, .error (.badRequest "Owner ID is required"))
  else
    match db.users.find? (fun u => u.id == dto.ownerId.getD "") with
    | none => (db, .error (.badRequest "Owner not found"))
    | some owner =>
      let address := buildAddress geocode dto ad db.nextId
      let db1 := { db with addresses := db.addresses ++ [address], nextId := db.nextId + 1 }
      match uploadAll gcs avatarFile backgroundFile certificateFile "" "" "" with
      | .error msg => (db1, .error (.badRequest ("File upload failed: " ++ msg)))
      | .ok (avatarUrl, backgroundUrl, certificateUrl) =>
        let restaurant := mkRestaurant dto db1.nextId owner
          avatarUrl backgroundUrl certificateUrl (some address) RestaurantStatus.APPROVED
        ({ db1 with restaurants := db1.restaurants ++ [restaurant], nextId := db1.nextId + 1 },
         .ok restaurant)

/-- Source `Object.assign(restaurant, updateRestaurantDto)` after `ownerId` has
been deleted from the payload: present scalar fields overwrite. -/
def assignRestaurant (r : Restaurant) (dto : UpdateRestaurantDto) : Restaurant :=
  { r with
    name := dto.name.getD r.name
    description := dto.description.getD r.description
    openTime := dto.openTime.getD r.openTime
    closeTime := dto.closeTime.getD r.closeTime }

/-- The owner-reassignment step shared by the update operations: a truthy
`ownerId` must resolve to an existing user, which replaces the owner
relation (and `ownerId` is deleted from the payload before the merge). -/
def resolveOwnerUpdate (db : Db) (r : Restaurant) (dto : UpdateRestaurantDto) :
    Except Err (Restaurant × UpdateRestaurantDto) :=
  if truthyOpt dto.ownerId then
    match db.users.find? (fun u => u.id == dto.ownerId.getD "") with
    | none => .error (.badRequest "Owner not found")
    | some owner => .ok ({ r with ownerId := owner.id }, { dto with ownerId := none })
  else
    .ok (r, dto)

/-- The per-field image replacement of the update operations: a provided
file's freshly uploaded URL replaces the stored one; absent files leave
the stored URLs untouched. -/
def applyFileUploads (r : Restaurant) (avatarFile backgroundFile certificateFile : Option String)
    (avatarUrl backgroundUrl certificateUrl : String) : Restaurant :=
  { r with
    avatar := if avatarFile.isSome then avatarUrl else r.avatar
    backgroundImage := if backgroundFile.isSome then backgroundUrl else r.backgroundImage
    certificateImage := if certificateFile.isSome then certificateUrl else r.certificateImage }

/-- The cleanup block of `updateWithFiles` (lines 200–210): each old URL
whose file was replaced is deleted in order; the deletions run inside the
surrounding try block, so the first thrown deletion error aborts the
sequence (and is not caught locally). -/
def cleanupSeq (gcs : Gcs) (avatarFile backgroundFile certificateFile : Option String)
    (oldAvatarUrl oldBackgroundUrl oldCertificateUrl : String) : Except String Unit := do
  let _ ← if avatarFile.isSome && truthy oldAvatarUrl then gcs.delete oldAvatarUrl
          else pure ()
  let _ ← if backgroundFile.isSome && truthy oldBackgroundUrl then gcs.delete oldBackgroundUrl
          else pure ()
  let _ ← if certificateFile.isSome && truthy oldCertificateUrl then gcs.delete oldCertificateUrl
          else pure ()
  pure ()

/-- Source `RestaurantService.updateWithFiles`: resolve the restaurant and any
owner change, upload replacement files, merge, persist, then delete the
replaced files. The whole sequence sits in one try/catch, so a thrown
deletion error after the save surfaces as a `BadRequestException` while
the saved restaurant stays persisted. -/
def updateWithFiles (gcs : Gcs) (rid : Nat) (dto : UpdateRestaurantDto)
    (avatarFile backgroundFile certificateFile : Option String)
    (db : Db) : Db × Except Err Restaurant :=
  match findOne db rid with
  | .error e => (db, .error e)
  | .ok restaurant0 =>
    match resolveOwnerUpdate db restaurant0 dto with
    | .error e => (db, .error e)
    | .ok (restaurant1, dto1) =>
      let oldAvatarUrl := restaurant1.avatar
      let oldBackgroundUrl := restaurant1.backgroundImage
      let oldCertificateUrl := restaurant1.certificateImage
      match uploadAll gcs avatarFile backgroundFile certificateFile
          restaurant1.avatar restaurant1.backgroundImage restaurant1.certificateImage with
      | .error msg => (db, .error (.badRequest ("Failed to update restaurant: " ++ msg)))
      | .ok (avatarUrl, backgroundUrl, certificateUrl) =>
        let restaurant2 := applyFileUploads restaurant1 avatarFile backgroundFile certificateFile
          avatarUrl backgroundUrl certificateUrl
        let restaurant3 := assignRestaurant restaurant2 dto1
        let db1 := { db with restaurants := saveRecord Restaurant.id restaurant3 db.restaurants }
        match cleanupSeq gcs avatarFile backgroundFile certificateFile
            oldAvatarUrl oldBackgroundUrl oldCertificateUrl with
        | .error msg => (db1, .error (.badRequest ("Failed to update restaurant: " ++ msg)))
        | .ok _ => (db1, .ok restaurant3)

/-- The address step of `updateWithAddressAndFiles` (lines 254–284): when
address data is supplied, the existing related address is updated in
place (or a new one created), geocoding is attempted best-effort, and the
address is saved and attached to the restaurant. -/
def applyAddressUpdate (geocode : AddressData → GeoOutcome) (db : Db)
    (r : Restaurant) (ad? : Option AddressData) : Db × Restaurant :=
  match ad? with
  | none => (db, r)
  | some ad =>
    match r.address with
    | some a0 =>
      let a1 := { a0 with street := ad.street, ward := ad.ward
                          district := ad.district, city := ad.city }
      let a2 := applyGeo geocode ad a1
      ({ db with addresses := saveRecord Address.id a2 db.addresses },
       { r with address := some a2 })
    | none =>
      let a1 : Address :=
        { id := db.nextId, street := ad.street, ward := ad.ward, district := ad.district
          city := ad.city, latitude := none, longitude := none }
      let a2 := applyGeo geocode ad a1
      ({ db with addresses := db.addresses ++ [a2], nextId := db.nextId + 1 },
       { r with address := some a2 })

/-- Source `RestaurantService.updateWithAddressAndFiles`: like `updateWithFiles`
with an optional address update, but each old-file deletion carries its
own `.catch` that only logs, so deletion failures never surface: after a
successful save the updated restaurant is always returned. -/
def updateWithAddressAndFiles (gcs : Gcs) (geocode : AddressData → GeoOutcome)
    (rid : Nat) (dto : UpdateRestaurantDto) (ad? : Option AddressData)
    (avatarFile backgroundFile certificateFile : Option String)
    (db : Db) : Db × Except Err Restaurant :=
  match findOne db rid with
  | .error e => (db, .error e)
  | .ok restaurant0 =>
    match resolveOwnerUpdate db restaurant0 dto with
    | .error e => (db, .error e)
    | .ok (restaurant1, dto1) =>
      let (db1, restaurant2) := applyAddressUpdate geocode db restaurant1 ad?
      match uploadAll gcs avatarFile backgroundFile certificateFile
          restaurant2.avatar restaurant2.backgroundImage restaurant2.certificateImage with
      | .error msg => (db1, .error (.badRequest ("Failed to update restaurant: " ++ msg)))
      | .ok (avatarUrl, backgroundUrl, certificateUrl) =>
        let restaurant3 := applyFileUploads restaurant2 avatarFile backgroundFile certificateFile
          avatarUrl backgroundUrl certificateUrl
        let restaurant4 := assignRestaurant restaurant3 dto1
        let db2 := { db1 with restaurants := saveRecord Restaurant.id restaurant4 db1.restaurants }
        let _avatarCleanup :=
          if avatarFile.isSome && truthy restaurant2.avatar then gcs.delete restaurant2.avatar
          else .ok ()
        let _backgroundCleanup :=
          if backgroundFile.isSome && truthy restaurant2.backgroundImage then
            gcs.delete restaurant2.backgroundImage
          else .ok ()
        let _certificateCleanup :=
          if certificateFile.isSome && truthy restaurant2.certificateImage then
            gcs.delete restaurant2.certificateImage
          else .ok ()
        (db2, .ok restaurant4)

end RestaurantService

open RestaurantService

/-! Concrete fixtures used to witness the verified properties. -/

def roleUser : Role := { id := "role-1", name := "USER" }

def alice : User :=
  { id := "u1", username := "alice", name := "Alice", email := "a@x.com"
    password := "pw123", role := some roleUser }

def pendingRestaurant : Restaurant :=
  { id := 1, name := "Joe's", description := "noodles", openTime := "08:00"
    closeTime := "22:00", avatar := "old-avatar.png", backgroundImage := ""
    certificateImage := "", latitude := none, longitude := none
    ownerId := "u1", address := none, status := RestaurantStatus.PENDING }

def approvedRestaurant : Restaurant :=
  { pendingRestaurant with id := 2, status := RestaurantStatus.APPROVED }

def exampleDb : Db :=
  { restaurants := [pendingRestaurant, approvedRestaurant], users := [alice]
    addresses := [], roles := [roleUser], nextId := 10 }

def exampleCreateDto : CreateRestaurantDto :=
  { name := "Joe's", description := "noodles", openTime := "08:00", closeTime := "22:00"
    latitude := none, longitude := none, address := none, ownerId := some "u1" }

def exampleUpdateDto : UpdateRestaurantDto :=
  { name := some "Joe's II", description := none, openTime := none
    closeTime := none, ownerId := none }

def exampleAddressData : AddressData :=
  { street := "1 Main St", ward := "Ward 4", district := "District 1", city := "HCMC" }

def exampleUserDto : CreateUserDto :=
  { username := "alice", name := "Alice", email := "a@x.com"
    password := "pw123", role := "role-1" }

def roleChangeDto : UpdateUserDto :=
  { username := none, name := some "Eve", email := none
    password := some "newpw", role := some "admin-role" }

def gcsOk : Gcs :=
  { upload := fun f folder => .ok (folder ++ "/" ++ f), delete := fun _ => .ok () }

def gcsUploadFail : Gcs :=
  { upload := fun _ _ => .error "network down", delete := fun _ => .ok () }

def gcsDeleteFail : Gcs :=
  { upload := fun f folder => .ok (folder ++ "/" ++ f)
    delete := fun _ => .error "storage unreachable" }

def geoNoResult : AddressData → GeoOutcome := fun _ => GeoOutcome.noResult

def geoFail : AddressData → GeoOutcome := fun _ => GeoOutcome.failure "mapbox timeout"

def hashDemo : String → String := fun s => "$2a$10$" ++ s

/-! Store-level helper lemmas. -/

theorem le_ceilDivNat_mul (t p : Nat) (hp : 0 < p) : t ≤ ceilDivNat t p * p := by
  unfold ceilDivNat
  have h1 := Nat.div_add_mod (t + p - 1) p
  have h2 : (t + p - 1) % p < p := Nat.mod_lt _ hp
  rw [Nat.mul_comm]
  generalize (t + p - 1) / p = q at *
  generalize hm : (t + p - 1) % p = m at *
  generalize p * q = x at *
  omega

theorem paginate_beyond_empty (rows : List α) (page p : Nat) (hp : 0 < p)
    (h : ceilDivNat rows.length p < page) : (paginate rows page p).items = [] := by
  have h1 : rows.length ≤ (page - 1) * p := by
    have h2 := le_ceilDivNat_mul rows.length p hp
    have h3 : ceilDivNat rows.length p ≤ page - 1 := by omega
    exact Nat.le_trans h2 (Nat.mul_le_mul_right p h3)
  simp [paginate, List.drop_eq_nil_of_le h1]

theorem saveRecord_find?_self [BEq κ] [LawfulBEq κ] (k : α → κ) (x : α) (s : List α) (i : κ)
    (hx : (k x == i) = true) :
    (saveRecord k x s).find? (fun y => k y == i) = some x := by
  induction s with
  | nil => simp [saveRecord, List.find?, hx]
  | cons a as ih =>
    by_cases h : (k a == k x) = true
    · simp [saveRecord, h, List.find?, hx]
    · have ha : (k a == i) = false := by
        apply Bool.eq_false_iff.mpr
        intro hai
        exact h (beq_iff_eq.mpr ((beq_iff_eq.mp hai).trans (beq_iff_eq.mp hx).symm))
      simp [saveRecord, h, List.find?, ha, ih]

theorem saveRecord_fresh [BEq κ] (k : α → κ) (x : α) (s : List α)
    (h : ∀ y ∈ s, (k y == k x) = false) : saveRecord k x s = s ++ [x] := by
  induction s with
  | nil => simp [saveRecord]
  | cons a as ih =>
    have ha := h a (List.mem_cons_self a as)
    simp [saveRecord, ha, ih (fun y hy => h y (List.mem_cons_of_mem a hy))]

/-! Claim theorems. -/

/-- C1: `approveRestaurant` succeeds iff the restaurant's current status
is PENDING, in which case the persisted status becomes APPROVED;
`rejectRestaurant` has the same precondition and persists REJECTED;
applying either to a non-PENDING restaurant fails with an error and
leaves the store unchanged. -/
theorem claim1_approve_reject_pending_only (db : Db) (id : Nat) :
    (exOk (approveRestaurant db id).2 = true ↔
      ∃ r, db.restaurants.find? (fun x => x.id == id) = some r ∧
        r.status = RestaurantStatus.PENDING) ∧
    (∀ r, db.restaurants.find? (fun x => x.id == id) = some r →
      r.status = RestaurantStatus.PENDING →
      (approveRestaurant db id).2 = .ok { r with status := RestaurantStatus.APPROVED } ∧
      (approveRestaurant db id).1.restaurants.find? (fun x => x.id == id) =
        some { r with status := RestaurantStatus.APPROVED }) ∧
    (exOk (approveRestaurant db id).2 = false → (approveRestaurant db id).1 = db) ∧
    (exOk (rejectRestaurant db id).2 = true ↔
      ∃ r, db.restaurants.find? (fun x => x.id == id) = some r ∧
        r.status = RestaurantStatus.PENDING) ∧
    (∀ r, db.restaurants.find? (fun x => x.id == id) = some r →
      r.status = RestaurantStatus.PENDING →
      (rejectRestaurant db id).2 = .ok { r with status := RestaurantStatus.REJECTED } ∧
      (rejectRestaurant db id).1.restaurants.find? (fun x => x.id == id) =
        some { r with status := RestaurantStatus.REJECTED }) ∧
    (exOk (rejectRestaurant db id).2 = false → (rejectRestaurant db id).1 = db) := by
  cases hfind : db.restaurants.find? (fun x => x.id == id) with
  | none =>
    simp [RestaurantService.approveRestaurant, RestaurantService.rejectRestaurant,
      RestaurantService.findOne, hfind, exOk]
  | some r =>
    have hid : ((fun x => x.id == id) r) = true :=
      @List.find?_some Restaurant (fun x => x.id == id) r db.restaurants hfind
    by_cases hst : r.status = RestaurantStatus.PENDING
    · refine ⟨?_, ?_, ?_, ?_, ?_, ?_⟩
      · exact ⟨fun _ => ⟨r, rfl, hst⟩, fun _ => by
          simp [RestaurantService.approveRestaurant, RestaurantService.findOne, hfind, hst, exOk]⟩
      · intro r' hfind' hst'
        have hrr : r = r' := Option.some.inj hfind'
        subst hrr
        constructor
        · simp [RestaurantService.approveRestaurant, RestaurantService.findOne, hfind, hst]
        · simp only [RestaurantService.approveRestaurant, RestaurantService.findOne, hfind, hst]
          simp only [ne_eq, not_true_eq_false, if_false]
          exact saveRecord_find?_self Restaurant.id _ db.restaurants id hid
      · intro hfail
        simp [RestaurantService.approveRestaurant, RestaurantService.findOne, hfind, hst, exOk]
          at hfail
      · exact ⟨fun _ => ⟨r, rfl, hst⟩, fun _ => by
          simp [RestaurantService.rejectRestaurant, RestaurantService.findOne, hfind, hst, exOk]⟩
      · intro r' hfind' hst'
        have hrr : r = r' := Option.some.inj hfind'
        subst hrr
        constructor
        · simp [RestaurantService.rejectRestaurant, RestaurantService.findOne, hfind, hst]
        · simp only [RestaurantService.rejectRestaurant, RestaurantService.findOne, hfind, hst]
          simp only [ne_eq, not_true_eq_false, if_false]
          exact saveRecord_find?_self Restaurant.id _ db.restaurants id hid
      · intro hfail
        simp [RestaurantService.rejectRestaurant, RestaurantService.findOne, hfind, hst, exOk]
          at hfail
    · refine ⟨?_, ?_, ?_, ?_, ?_, ?_⟩
      · constructor
        · intro hok
          simp [RestaurantService.approveRestaurant, RestaurantService.findOne, hfind, hst, exOk]
            at hok
        · rintro ⟨r', hfind', hst'⟩
          have hrr : r = r' := Option.some.inj hfind'
          exact absurd (hrr ▸ hst') hst
      · intro r' hfind' hst'
        have hrr : r = r' := Option.some.inj hfind'
        exact absurd (hrr ▸ hst') hst
      · intro _
        simp [RestaurantService.approveRestaurant, RestaurantService.findOne, hfind, hst]
      · constructor
        · intro hok
          simp [RestaurantService.rejectRestaurant, RestaurantService.findOne, hfind, hst, exOk]
            at hok
        · rintro ⟨r', hfind', hst'⟩
          have hrr : r = r' := Option.some.inj hfind'
          exact absurd (hrr ▸ hst') hst
      · intro r' hfind' hst'
        have hrr : r = r' := Option.some.inj hfind'
        exact absurd (hrr ▸ hst') hst
      · intro _
        simp [RestaurantService.rejectRestaurant, RestaurantService.findOne, hfind, hst]

/-- Witness for C1: on the example store, approving the PENDING
restaurant succeeds, and its persisted status becomes APPROVED. -/
theorem claim1_approve_reject_pending_only_witness :
    exOk (approveRestaurant exampleDb 1).2 = true :=
  (claim1_approve_reject_pending_only exampleDb 1).1.mpr ⟨pendingRestaurant, by decide, rfl⟩

/-- C2: `deleteRestaurantRequest` succeeds iff the restaurant exists and
its status is PENDING, in which case the record is deleted; otherwise
the operation fails with an error and the store is unchanged. -/
theorem claim2_delete_request_pending_only (db : Db) (id : Nat) :
    (exOk (deleteRestaurantRequest db id).2 = true ↔
      ∃ r, db.restaurants.find? (fun x => x.id == id) = some r ∧
        r.status = RestaurantStatus.PENDING) ∧
    (exOk (deleteRestaurantRequest db id).2 = true →
      (deleteRestaurantRequest db id).1.restaurants.find? (fun x => x.id == id) = none) ∧
    (exOk (deleteRestaurantRequest db id).2 = false → (deleteRestaurantRequest db id).1 = db) := by
  cases hfind : db.restaurants.find? (fun x => x.id == id) with
  | none =>
    simp [RestaurantService.deleteRestaurantRequest, RestaurantService.findOne, hfind, exOk]
  | some r =>
    have hid : ((fun x => x.id == id) r) = true :=
      @List.find?_some Restaurant (fun x => x.id == id) r db.restaurants hfind
    have hmem : r ∈ db.restaurants := List.mem_of_find?_eq_some hfind
    by_cases hst : r.status = RestaurantStatus.PENDING
    · have hc : (db.restaurants.countP (fun x => x.id == id) == 0) = false := by
        have hpos : 0 < db.restaurants.countP (fun x => x.id == id) :=
          List.countP_pos_iff.mpr ⟨r, hmem, hid⟩
        simp only [beq_eq_false_iff_ne, ne_eq]
        omega
      refine ⟨⟨fun _ => ⟨r, rfl, hst⟩, fun _ => ?_⟩, fun _ => ?_, fun hfail => ?_⟩
      · simp [RestaurantService.deleteRestaurantRequest, RestaurantService.findOne,
          RestaurantService.deleteById, hfind, hst, hc, exOk]
      · simp only [RestaurantService.deleteRestaurantRequest, RestaurantService.findOne,
          RestaurantService.deleteById, hfind, hst, hc]
        simp only [ne_eq, not_true_eq_false, if_false, Bool.false_eq_true]
        apply List.find?_eq_none.mpr
        intro x hx
        have := (List.mem_filter.mp hx).2
        simp only [Bool.not_eq_true'] at this
        simp [this]
      · simp [RestaurantService.deleteRestaurantRequest, RestaurantService.findOne,
          RestaurantService.deleteById, hfind, hst, hc, exOk] at hfail
    · refine ⟨⟨fun hok => ?_, fun hex => ?_⟩, fun hok => ?_, fun _ => ?_⟩
      · simp [RestaurantService.deleteRestaurantRequest, RestaurantService.findOne,
          hfind, hst, exOk] at hok
      · obtain ⟨r', hfind', hst'⟩ := hex
        exact absurd ((Option.some.inj hfind') ▸ hst') hst
      · simp [RestaurantService.deleteRestaurantRequest, RestaurantService.findOne,
          hfind, hst, exOk] at hok
      · simp [RestaurantService.deleteRestaurantRequest, RestaurantService.findOne, hfind, hst]

/-- Witness for C2: deleting the PENDING request succeeds on the example
store, and deleting the APPROVED restaurant as a request fails. -/
theorem claim2_delete_request_pending_only_witness :
    exOk (deleteRestaurantRequest exampleDb 1).2 = true :=
  (claim2_delete_request_pending_only exampleDb 1).1.mpr ⟨pendingRestaurant, by decide, rfl⟩

/-- C3: with a creation DTO whose owner id is supplied and resolves to an
existing user, `requestRestaurant` persists a restaurant with status
PENDING, while `create` (the direct/admin path) and — when its uploads
succeed — `requestRestaurantWithFiles` persist restaurants with status
APPROVED, bypassing review. -/
theorem claim3_creation_statuses (db : Db) (dto : CreateRestaurantDto)
    (gcs : Gcs) (geocode : AddressData → GeoOutcome) (ad : AddressData)
    (avatarFile backgroundFile certificateFile : Option String) (owner : User)
    (hOwnerTruthy : truthyOpt dto.ownerId = true)
    (hOwner : db.users.find? (fun u => u.id == dto.ownerId.getD "") = some owner) :
    (∃ r, (requestRestaurant dto db).2 = .ok r ∧ r.status = RestaurantStatus.PENDING ∧
      r ∈ (requestRestaurant dto db).1.restaurants) ∧
    (∃ r, (RestaurantService.create dto db).2 = .ok r ∧
      r.status = RestaurantStatus.APPROVED ∧
      r ∈ (RestaurantService.create dto db).1.restaurants) ∧
    (∀ urls, uploadAll gcs avatarFile backgroundFile certificateFile "" "" "" = .ok urls →
      ∃ r, (requestRestaurantWithFiles gcs geocode dto ad
              avatarFile backgroundFile certificateFile db).2 = .ok r ∧
        r.status = RestaurantStatus.APPROVED ∧
        r ∈ (requestRestaurantWithFiles gcs geocode dto ad
              avatarFile backgroundFile certificateFile db).1.restaurants) := by
  refine ⟨?_, ?_, ?_⟩
  · simp only [RestaurantService.requestRestaurant, hOwnerTruthy, if_true, hOwner]
    by_cases haddr : truthyOpt dto.address = true
    · simp only [haddr, if_true]
      exact ⟨_, rfl, rfl, by simp⟩
    · simp only [haddr, if_false]
      exact ⟨_, rfl, rfl, by simp⟩
  · simp only [RestaurantService.create, hOwnerTruthy, if_true, hOwner]
    by_cases haddr : truthyOpt dto.address = true
    · simp only [haddr, if_true]
      exact ⟨_, rfl, rfl, by simp⟩
    · simp only [haddr, if_false]
      exact ⟨_, rfl, rfl, by simp⟩
  · intro urls hup
    obtain ⟨aUrl, bUrl, cUrl⟩ := urls
    simp only [RestaurantService.requestRestaurantWithFiles, hOwnerTruthy, Bool.not_true,
      Bool.false_eq_true, if_false, hOwner, hup]
    exact ⟨_, rfl, rfl, by simp⟩

/-- Witness for C3: the example DTO with an existing owner lets all three
creation paths run; in particular the review path yields PENDING. -/
theorem claim3_creation_statuses_witness :
    ∃ r, (requestRestaurant exampleCreateDto exampleDb).2 = .ok r ∧
      r.status = RestaurantStatus.PENDING ∧
      r ∈ (requestRestaurant exampleCreateDto exampleDb).1.restaurants :=
  (claim3_creation_statuses exampleDb exampleCreateDto gcsOk geoNoResult exampleAddressData
    none none none alice rfl (by decide)).1

/-- C4: `findAll`, `findAllApproved`, `getRestaurantRequests` and
`getPreview` all return the `{items, totalItems, page, pageSize,
totalPages}` envelope with `totalPages = ceil(totalItems / pageSize)`;
omitted parameters default to `page = 1`, `pageSize = 10`; requesting a
page beyond `totalPages` yields an empty items list while `totalItems`
and `totalPages` are unchanged from those of page 1. -/
theorem claim4_pagination_envelope (db : Db) (page p : Nat) (hp : 0 < p) :
    ((findAll db (some page) (some p)).page = page ∧
     (findAll db (some page) (some p)).pageSize = p ∧
     (findAll db (some page) (some p)).totalPages =
       ceilDivNat (findAll db (some page) (some p)).totalItems p) ∧
    ((findAllApproved db (some page) (some p)).page = page ∧
     (findAllApproved db (some page) (some p)).pageSize = p ∧
     (findAllApproved db (some page) (some p)).totalPages =
       ceilDivNat (findAllApproved db (some page) (some p)).totalItems p) ∧
    ((getRestaurantRequests db (some page) (some p)).page = page ∧
     (getRestaurantRequests db (some page) (some p)).pageSize = p ∧
     (getRestaurantRequests db (some page) (some p)).totalPages =
       ceilDivNat (getRestaurantRequests db (some page) (some p)).totalItems p) ∧
    ((getPreview db (some page) (some p)).page = page ∧
     (getPreview db (some page) (some p)).pageSize = p ∧
     (getPreview db (some page) (some p)).totalPages =
       ceilDivNat (getPreview db (some page) (some p)).totalItems p) ∧
    ((findAll db none none).page = 1 ∧ (findAll db none none).pageSize = 10) ∧
    ((findAllApproved db none none).page = 1 ∧ (findAllApproved db none none).pageSize = 10) ∧
    ((getRestaurantRequests db none none).page = 1 ∧
     (getRestaurantRequests db none none).pageSize = 10) ∧
    ((getPreview db none none).page = 1 ∧ (getPreview db none none).pageSize = 10) ∧
    ((findAll db (some page) (some p)).totalPages < page →
      (findAll db (some page) (some p)).items = []) ∧
    ((findAllApproved db (some page) (some p)).totalPages < page →
      (findAllApproved db (some page) (some p)).items = []) ∧
    ((getRestaurantRequests db (some page) (some p)).totalPages < page →
      (getRestaurantRequests db (some page) (some p)).items = []) ∧
    ((getPreview db (some page) (some p)).totalPages < page →
      (getPreview db (some page) (some p)).items = []) ∧
    ((findAll db (some page) (some p)).totalItems =
       (findAll db (some 1) (some p)).totalItems ∧
     (findAll db (some page) (some p)).totalPages =
       (findAll db (some 1) (some p)).totalPages) ∧
    ((findAllApproved db (some page) (some p)).totalItems =
       (findAllApproved db (some 1) (some p)).totalItems ∧
     (findAllApproved db (some page) (some p)).totalPages =
       (findAllApproved db (some 1) (some p)).totalPages) ∧
    ((getRestaurantRequests db (some page) (some p)).totalItems =
       (getRestaurantRequests db (some 1) (some p)).totalItems ∧
     (getRestaurantRequests db (some page) (some p)).totalPages =
       (getRestaurantRequests db (some 1) (some p)).totalPages) ∧
    ((getPreview db (some page) (some p)).totalItems =
       (getPreview db (some 1) (some p)).totalItems ∧
     (getPreview db (some page) (some p)).totalPages =
       (getPreview db (some 1) (some p)).totalPages) := by
  refine ⟨⟨rfl, rfl, rfl⟩, ⟨rfl, rfl, rfl⟩, ⟨rfl, rfl, rfl⟩, ⟨rfl, rfl, rfl⟩,
    ⟨rfl, rfl⟩, ⟨rfl, rfl⟩, ⟨rfl, rfl⟩, ⟨rfl, rfl⟩,
    ?_, ?_, ?_, ?_, ⟨rfl, rfl⟩, ⟨rfl, rfl⟩, ⟨rfl, rfl⟩, ⟨rfl, rfl⟩⟩
  · exact fun h => paginate_beyond_empty _ page p hp h
  · exact fun h => paginate_beyond_empty _ page p hp h
  · exact fun h => paginate_beyond_empty _ page p hp h
  · exact fun h => paginate_beyond_empty _ page p hp h

/-- Witness for C4: on the example store with page size 1, page 5 is
beyond the last page of `findAll` and returns no items. -/
theorem claim4_pagination_envelope_witness :
    (findAll exampleDb (some 5) (some 1)).items = [] :=
  (claim4_pagination_envelope exampleDb 5 1 (by decide)).2.2.2.2.2.2.2.2.1 (by decide)

/-- C5: when the referenced role exists and the generated id is fresh,
`UsersService.create` and `UsersService.register` each persist exactly
one new user entity whose stored password field is the bcrypt image of
the plaintext and therefore never equal to the plaintext input (bcrypt
never returns its input unchanged). -/
theorem claim5_password_hashed_single_insert (hash : String → String) (genId : String)
    (dto : CreateUserDto) (regId : String) (db : Db) (role roleU : Role)
    (hhash : hash dto.password ≠ dto.password)
    (hrole : db.roles.find? (fun rl => rl.id == dto.role) = some role)
    (hroleU : db.roles.find? (fun rl => rl.name == UsersService.defaultUserRoleName)
      = some roleU)
    (hfresh : ∀ u ∈ db.users, (u.id == genId) = false)
    (hfreshReg : ∀ u ∈ db.users,
      (u.id == (if truthy regId then regId else genId)) = false) :
    (∃ u, (UsersService.create hash genId dto db).2 = .ok u ∧
      u.password = hash dto.password ∧ u.password ≠ dto.password ∧
      (UsersService.create hash genId dto db).1.users = db.users ++ [u]) ∧
    (∃ u, (UsersService.register hash genId dto regId db).2 = .ok u ∧
      u.password = hash dto.password ∧ u.password ≠ dto.password ∧
      (UsersService.register hash genId dto regId db).1.users = db.users ++ [u]) := by
  constructor
  · simp only [UsersService.create, hrole]
    exact ⟨_, rfl, rfl, hhash, saveRecord_fresh User.id _ db.users hfresh⟩
  · simp only [UsersService.register, hroleU]
    exact ⟨_, rfl, rfl, hhash, saveRecord_fresh User.id _ db.users hfreshReg⟩

/-- Witness for C5: registering alice's DTO with the demo bcrypt stand-in
on an empty user store persists one user with a non-plaintext password. -/
theorem claim5_password_hashed_single_insert_witness :
    ∃ u, (UsersService.create hashDemo "fresh-id-28-chars" exampleUserDto
          { exampleDb with users := [] }).2 = .ok u ∧
      u.password = hashDemo exampleUserDto.password ∧
      u.password ≠ exampleUserDto.password ∧
      (UsersService.create hashDemo "fresh-id-28-chars" exampleUserDto
          { exampleDb with users := [] }).1.users = [] ++ [u] :=
  (claim5_password_hashed_single_insert hashDemo "fresh-id-28-chars" exampleUserDto "u9"
    { exampleDb with users := [] } roleUser roleUser (by decide) (by decide) (by decide)
    (by intro u hu; cases hu) (by intro u hu; cases hu)).1

/-- C6: if the upload of any provided file fails during
`requestRestaurantWithFiles`, the operation yields an error and the
restaurant table is left unchanged — no partial restaurant record is
persisted. -/
theorem claim6_upload_failure_aborts (gcs : Gcs) (geocode : AddressData → GeoOutcome)
    (dto : CreateRestaurantDto) (ad : AddressData)
    (avatarFile backgroundFile certificateFile : Option String) (db : Db) (msg : String)
    (hup : uploadAll gcs avatarFile backgroundFile certificateFile "" "" "" = .error msg) :
    exOk (requestRestaurantWithFiles gcs geocode dto ad
        avatarFile backgroundFile certificateFile db).2 = false ∧
    (requestRestaurantWithFiles gcs geocode dto ad
        avatarFile backgroundFile certificateFile db).1.restaurants = db.restaurants := by
  cases h1 : truthyOpt dto.ownerId with
  | false => simp [RestaurantService.requestRestaurantWithFiles, h1, exOk]
  | true =>
    cases hOwner : db.users.find? (fun u => u.id == dto.ownerId.getD "") with
    | none => simp [RestaurantService.requestRestaurantWithFiles, h1, hOwner, exOk]
    | some owner =>
      simp [RestaurantService.requestRestaurantWithFiles, h1, hOwner, hup, exOk]

/-- Witness for C6: a store collaborator whose uploads fail makes the
example creation request abort with the restaurant table untouched. -/
theorem claim6_upload_failure_aborts_witness :
    exOk (requestRestaurantWithFiles gcsUploadFail geoNoResult exampleCreateDto
        exampleAddressData (some "avatar.png") none none exampleDb).2 = false ∧
    (requestRestaurantWithFiles gcsUploadFail geoNoResult exampleCreateDto
        exampleAddressData (some "avatar.png") none none exampleDb).1.restaurants
      = exampleDb.restaurants :=
  claim6_upload_failure_aborts gcsUploadFail geoNoResult exampleCreateDto exampleAddressData
    (some "avatar.png") none none exampleDb "network down" rfl

theorem buildAddress_geo_failure_coords_none (geocode : AddressData → GeoOutcome)
    (dto : CreateRestaurantDto) (ad : AddressData) (aid : Nat)
    (hNoCoords : (truthyOpt dto.latitude && truthyOpt dto.longitude) = false)
    (hgeo : geocode ad = GeoOutcome.noResult ∨ ∃ m, geocode ad = GeoOutcome.failure m) :
    (buildAddress geocode dto ad aid).latitude = none ∧
    (buildAddress geocode dto ad aid).longitude = none := by
  unfold RestaurantService.buildAddress RestaurantService.applyGeo
  simp only [hNoCoords, Bool.false_eq_true, if_false]
  rcases hgeo with h | ⟨m, h⟩ <;> simp [h]

/-- C7: when no caller-supplied coordinates are given and geocoding
returns no result or throws, `requestRestaurantWithFiles` still succeeds
(owner existing, uploads succeeding) and persists the restaurant with an
address whose latitude and longitude are null. -/
theorem claim7_geocode_failure_nonfatal (gcs : Gcs) (geocode : AddressData → GeoOutcome)
    (dto : CreateRestaurantDto) (ad : AddressData)
    (avatarFile backgroundFile certificateFile : Option String) (db : Db) (owner : User)
    (urls : String × String × String)
    (hOwnerTruthy : truthyOpt dto.ownerId = true)
    (hOwner : db.users.find? (fun u => u.id == dto.ownerId.getD "") = some owner)
    (hNoCoords : (truthyOpt dto.latitude && truthyOpt dto.longitude) = false)
    (hgeo : geocode ad = GeoOutcome.noResult ∨ ∃ m, geocode ad = GeoOutcome.failure m)
    (hup : uploadAll gcs avatarFile backgroundFile certificateFile "" "" "" = .ok urls) :
    ∃ r a, (requestRestaurantWithFiles gcs geocode dto ad
        avatarFile backgroundFile certificateFile db).2 = .ok r ∧
      r.address = some a ∧ a.latitude = none ∧ a.longitude = none ∧
      (requestRestaurantWithFiles gcs geocode dto ad
        avatarFile backgroundFile certificateFile db).1.addresses = db.addresses ++ [a] ∧
      r ∈ (requestRestaurantWithFiles gcs geocode dto ad
        avatarFile backgroundFile certificateFile db).1.restaurants := by
  obtain ⟨aUrl, bUrl, cUrl⟩ := urls
  obtain ⟨hlat, hlng⟩ := buildAddress_geo_failure_coords_none geocode dto ad db.nextId
    hNoCoords hgeo
  simp only [RestaurantService.requestRestaurantWithFiles, hOwnerTruthy, Bool.not_true,
    Bool.false_eq_true, if_false, hOwner, hup]
  exact ⟨_, _, rfl, rfl, hlat, hlng, rfl, by simp⟩

/-- Witness for C7: with a failing geocoder and working uploads, the
example request persists a restaurant whose address has null
coordinates. -/
theorem claim7_geocode_failure_nonfatal_witness :
    ∃ r a, (requestRestaurantWithFiles gcsOk geoFail exampleCreateDto
        exampleAddressData none none none exampleDb).2 = .ok r ∧
      r.address = some a ∧ a.latitude = none ∧ a.longitude = none ∧
      (requestRestaurantWithFiles gcsOk geoFail exampleCreateDto
        exampleAddressData none none none exampleDb).1.addresses
        = exampleDb.addresses ++ [a] ∧
      r ∈ (requestRestaurantWithFiles gcsOk geoFail exampleCreateDto
        exampleAddressData none none none exampleDb).1.restaurants :=
  claim7_geocode_failure_nonfatal gcsOk geoFail exampleCreateDto exampleAddressData
    none none none exampleDb alice ("", "", "") rfl (by decide) rfl
    (Or.inr ⟨"mapbox timeout", rfl⟩) rfl

/-- C10: when a file upload fails in `requestRestaurantWithFiles`, the
operation errors and no restaurant is persisted, but the Address created
and saved earlier in the same call remains persisted — the abort does not
roll back the address row. -/
theorem claim10_address_survives_upload_failure (gcs : Gcs)
    (geocode : AddressData → GeoOutcome) (dto : CreateRestaurantDto) (ad : AddressData)
    (avatarFile backgroundFile certificateFile : Option String) (db : Db) (owner : User)
    (msg : String)
    (hOwnerTruthy : truthyOpt dto.ownerId = true)
    (hOwner : db.users.find? (fun u => u.id == dto.ownerId.getD "") = some owner)
    (hup : uploadAll gcs avatarFile backgroundFile certificateFile "" "" "" = .error msg) :
    exOk (requestRestaurantWithFiles gcs geocode dto ad
        avatarFile backgroundFile certificateFile db).2 = false ∧
    (requestRestaurantWithFiles gcs geocode dto ad
        avatarFile backgroundFile certificateFile db).1.restaurants = db.restaurants ∧
    (requestRestaurantWithFiles gcs geocode dto ad
        avatarFile backgroundFile certificateFile db).1.addresses
      = db.addresses ++ [buildAddress geocode dto ad db.nextId] := by
  simp only [RestaurantService.requestRestaurantWithFiles, hOwnerTruthy, Bool.not_true,
    Bool.false_eq_true, if_false, hOwner, hup]
  refine ⟨?_, ?_, ?_⟩ <;> first | rfl | trivial

/-- Witness for C10: on the example store a failing upload aborts the
request, yet the freshly built address row is persisted. -/
theorem claim10_address_survives_upload_failure_witness :
    exOk (requestRestaurantWithFiles gcsUploadFail geoNoResult exampleCreateDto
        exampleAddressData (some "avatar.png") none none exampleDb).2 = false ∧
    (requestRestaurantWithFiles gcsUploadFail geoNoResult exampleCreateDto
        exampleAddressData (some "avatar.png") none none exampleDb).1.restaurants
      = exampleDb.restaurants ∧
    (requestRestaurantWithFiles gcsUploadFail geoNoResult exampleCreateDto
        exampleAddressData (some "avatar.png") none none exampleDb).1.addresses
      = exampleDb.addresses
        ++ [buildAddress geoNoResult exampleCreateDto exampleAddressData exampleDb.nextId] :=
  claim10_address_survives_upload_failure gcsUploadFail geoNoResult exampleCreateDto
    exampleAddressData (some "avatar.png") none none exampleDb alice "network down"
    rfl (by decide) rfl

/-- Counterexample to C8 as stated: with a storage collaborator whose
deletions fail, `updateWithFiles` persists the updated restaurant (its
stored avatar is the freshly uploaded URL) yet the operation raises a
`BadRequestException` instead of returning the updated restaurant — the
cleanup deletion failure is propagated, not merely logged. -/
theorem claim8_updateWithFiles_propagates_cleanup_failure :
    (updateWithFiles gcsDeleteFail 1 exampleUpdateDto (some "new.png") none none
        exampleDb).2
      = .error (.badRequest "Failed to update restaurant: storage unreachable") ∧
    ((updateWithFiles gcsDeleteFail 1 exampleUpdateDto (some "new.png") none none
        exampleDb).1.restaurants.find? (fun x => x.id == 1)).map Restaurant.avatar
      = some "restaurant-avatars/new.png" := by decide

/-- C8 amended: after a successful save, `updateWithAddressAndFiles`
swallows old-file deletion failures and always returns the updated,
persisted restaurant; in `updateWithFiles`, however, the cleanup runs
inside the operation's try/catch, so a deletion failure is re-raised as
an error even though the updated restaurant remains persisted. -/
theorem claim8_cleanup_policy (gcs : Gcs) (geocode : AddressData → GeoOutcome)
    (rid : Nat) (dto : UpdateRestaurantDto)
    (avatarFile backgroundFile certificateFile : Option String) (db : Db)
    (r0 : Restaurant) (aUrl bUrl cUrl msg : String)
    (hfind : db.restaurants.find? (fun x => x.id == rid) = some r0)
    (hNoOwner : truthyOpt dto.ownerId = false)
    (hup : uploadAll gcs avatarFile backgroundFile certificateFile
      r0.avatar r0.backgroundImage r0.certificateImage = .ok (aUrl, bUrl, cUrl)) :
    ((updateWithAddressAndFiles gcs geocode rid dto none
        avatarFile backgroundFile certificateFile db).2
      = .ok (assignRestaurant (applyFileUploads r0 avatarFile backgroundFile
          certificateFile aUrl bUrl cUrl) dto) ∧
     (updateWithAddressAndFiles gcs geocode rid dto none
        avatarFile backgroundFile certificateFile db).1.restaurants.find?
          (fun x => x.id == rid)
      = some (assignRestaurant (applyFileUploads r0 avatarFile backgroundFile
          certificateFile aUrl bUrl cUrl) dto)) ∧
    (cleanupSeq gcs avatarFile backgroundFile certificateFile
        r0.avatar r0.backgroundImage r0.certificateImage = .error msg →
      (updateWithFiles gcs rid dto avatarFile backgroundFile certificateFile db).2
        = .error (.badRequest ("Failed to update restaurant: " ++ msg)) ∧
      (updateWithFiles gcs rid dto avatarFile backgroundFile
          certificateFile db).1.restaurants.find? (fun x => x.id == rid)
        = some (assignRestaurant (applyFileUploads r0 avatarFile backgroundFile
            certificateFile aUrl bUrl cUrl) dto)) := by
  have hid : ((fun x => x.id == rid) r0) = true :=
    @List.find?_some Restaurant (fun x => x.id == rid) r0 db.restaurants hfind
  constructor
  · simp only [RestaurantService.updateWithAddressAndFiles, RestaurantService.findOne, hfind,
      RestaurantService.resolveOwnerUpdate, hNoOwner, Bool.false_eq_true, if_false,
      RestaurantService.applyAddressUpdate, hup]
    refine ⟨by trivial, ?_⟩
    exact saveRecord_find?_self Restaurant.id _ db.restaurants rid hid
  · intro hclean
    simp only [RestaurantService.updateWithFiles, RestaurantService.findOne, hfind,
      RestaurantService.resolveOwnerUpdate, hNoOwner, Bool.false_eq_true, if_false,
      hup, hclean]
    refine ⟨by trivial, ?_⟩
    exact saveRecord_find?_self Restaurant.id _ db.restaurants rid hid

/-- Witness for the amended C8: on the example store, the address-aware
update succeeds despite failing deletions, while `updateWithFiles`
surfaces the propagated cleanup error. -/
theorem claim8_cleanup_policy_witness :
    exOk (updateWithAddressAndFiles gcsDeleteFail geoNoResult 1 exampleUpdateDto none
        (some "new.png") none none exampleDb).2 = true ∧
    (updateWithFiles gcsDeleteFail 1 exampleUpdateDto (some "new.png") none none
        exampleDb).2
      = .error (.badRequest "Failed to update restaurant: storage unreachable") := by
  have h := claim8_cleanup_policy gcsDeleteFail geoNoResult 1 exampleUpdateDto
    (some "new.png") none none exampleDb pendingRestaurant
    "restaurant-avatars/new.png" "" "" "storage unreachable" (by decide) rfl (by decide)
  refine ⟨?_, (h.2 (by decide)).1⟩
  rw [h.1.1]
  rfl

/-- C9: `updateMe` never changes the user's role: the `role` field is
stripped from the payload before the merge, so the persisted user's role
equals the role stored before the call, whatever other fields change. -/
theorem claim9_updateMe_preserves_role (hash : String → String) (db : Db) (id : String)
    (dto : UpdateUserDto) (u : User)
    (hfind : db.users.find? (fun x => x.id == id) = some u) :
    ∃ u', (UsersService.updateMe hash db id dto).2 = .ok u' ∧
      u'.role = u.role ∧
      (UsersService.updateMe hash db id dto).1.users.find? (fun x => x.id == id)
        = some u' := by
  have hid : ((fun x => x.id == id) u) = true :=
    @List.find?_some User (fun x => x.id == id) u db.users hfind
  cases hpw : dto.password with
  | none =>
    simp only [UsersService.updateMe, hfind, UsersService.stripRole, hpw]
    exact ⟨_, rfl, rfl, saveRecord_find?_self User.id _ db.users id hid⟩
  | some p =>
    by_cases htr : truthy p = true
    · simp only [UsersService.updateMe, hfind, UsersService.stripRole, hpw, htr, if_true]
      exact ⟨_, rfl, rfl, saveRecord_find?_self User.id _ db.users id hid⟩
    · have htr' : truthy p = false := by
        cases h : truthy p
        · rfl
        · exact absurd h htr
      simp only [UsersService.updateMe, hfind, UsersService.stripRole, hpw, htr',
        Bool.false_eq_true, if_false]
      exact ⟨_, rfl, rfl, saveRecord_find?_self User.id _ db.users id hid⟩

/-- Witness for C9: a self-service update that tries to set a new role
still leaves alice's persisted role unchanged. -/
theorem claim9_updateMe_preserves_role_witness :
    ∃ u', (UsersService.updateMe hashDemo exampleDb "u1" roleChangeDto).2 = .ok u' ∧
      u'.role = alice.role ∧
      (UsersService.updateMe hashDemo exampleDb "u1" roleChangeDto).1.users.find?
        (fun x => x.id == "u1") = some u' :=
  claim9_updateMe_preserves_role hashDemo exampleDb "u1" roleChangeDto alice (by decide)
